import Mathlib

/-!
Shallow embedding of the energy-analysis pipeline
(`src/data_fetcher.py`, `src/data_processor.py`, `src/analysis.py`,
`src/pipeline.py`) and proofs about it.

Modelling conventions:
* Dates are integers counting days since 1970-01-01 (a Thursday), so
  pandas `Timestamp.weekday()` (Monday = 0) is `(d + 3) mod 7`.
* Numeric cell values are rationals (`Rat`); a pandas-nullable column is
  `Option Rat`, and a comparison against a null cell is `false`, exactly
  as a NaN comparison is `False` in pandas.
* DataFrames are lists of row structures, row order preserved as pandas
  preserves it.
-/

namespace EnergyAnalysis

/-! ## Weather fetcher: unit conversion (`src/data_fetcher.py`, fetch_weather_data)

`df_pivot["TMAX"].apply(lambda x: (x / 10 * 9/5) + 32 if pd.notnull(x) else None)` -/

/-- The Fahrenheit conversion applied to a raw reading in tenths of a degree
Celsius: `(x / 10 * 9/5) + 32`. -/
def fahrenheit (x : ℚ) : ℚ :=
  x / 10 * (9 / 5) + 32

/-! ## Heatmap temperature banding (`src/analysis.py`, generate_heatmap_matrix)

The inner helper `temp_range` of `generate_heatmap_matrix`. -/

/-- Temperature band assignment used by the heatmap matrix. -/
def temp_range (val : ℚ) : String :=
  if val < 50 then "<50°F"
  else if val < 60 then "50-60°F"
  else if val < 70 then "60-70°F"
  else if val < 80 then "70-80°F"
  else if val < 90 then "80-90°F"
  else ">90°F"

/-! ## Data processor (`src/data_processor.py`)

Rows of the per-city raw weather CSV, raw energy CSV, and the merged frame.
Only the columns that take part in the modelled computations are kept; the
modelled columns are exactly the nullable ones (`date` and `city` are never
null in the source data). -/

/-- A row of a per-city raw weather file: date plus Fahrenheit max/min. -/
structure WeatherRow where
  date : ℤ
  tmax_f : Option ℚ
  tmin_f : Option ℚ
deriving DecidableEq

/-- A row of a per-city raw energy file: date plus demand in MWh. -/
structure EnergyRow where
  date : ℤ
  energy_mwh : Option ℚ
deriving DecidableEq

/-- A row of the merged (weather ⋈ energy) frame for one city. -/
structure MergedRow where
  date : ℤ
  tmax_f : Option ℚ
  tmin_f : Option ℚ
  energy_mwh : Option ℚ
  city : String
deriving DecidableEq

/-- Pandas semantics of `series > c` on a nullable cell: `False` on NaN. -/
def optGt (o : Option ℚ) (c : ℚ) : Bool :=
  match o with
  | some v => decide (c < v)
  | none => false

/-- Pandas semantics of `series < c` on a nullable cell: `False` on NaN. -/
def optLt (o : Option ℚ) (c : ℚ) : Bool :=
  match o with
  | some v => decide (v < c)
  | none => false

/-- Pandas semantics of `series >= c` on a nullable cell: `False` on NaN. -/
def optGe (o : Option ℚ) (c : ℚ) : Bool :=
  match o with
  | some v => decide (c ≤ v)
  | none => false

/-- A row of a quality report. Checks 1–3 carry no `is_fresh` value (`none`);
the freshness check carries `some`. -/
structure ReportRow where
  check : String
  column : String
  count : ℤ
  is_fresh : Option Bool
deriving DecidableEq

/-- `(df["tmax_f"] > 130) | (df["tmax_f"] < -50) | (df["tmin_f"] > 130) | (df["tmin_f"] < -50)`:
the row-level temperature-outlier flag of check 2. -/
def isTempOutlier (r : MergedRow) : Bool :=
  optGt r.tmax_f 130 || optLt r.tmax_f (-50) || optGt r.tmin_f 130 || optLt r.tmin_f (-50)

/-- `len(temp_outliers)` of check 2. -/
def tempOutlierCount (df : List MergedRow) : ℕ :=
  df.countP isTempOutlier

/-- `(df["energy_mwh"].isnull()) | (df["energy_mwh"] < 0)`: the row-level flag of check 3. -/
def isEnergyIssue (r : MergedRow) : Bool :=
  r.energy_mwh.isNone || optLt r.energy_mwh 0

/-- `len(demand_issues)` of check 3. -/
def energyIssueCount (df : List MergedRow) : ℕ :=
  df.countP isEnergyIssue

/-- Check 1 (`df.isnull().sum()` with `missing > 0`): one report row per
nullable column holding at least one null, in the frame's column order. -/
def missingRows (df : List MergedRow) : List ReportRow :=
  (if 0 < df.countP (fun r => r.tmax_f.isNone) then
    [⟨"missing_values", "tmax_f", df.countP (fun r => r.tmax_f.isNone), none⟩] else []) ++
  (if 0 < df.countP (fun r => r.tmin_f.isNone) then
    [⟨"missing_values", "tmin_f", df.countP (fun r => r.tmin_f.isNone), none⟩] else []) ++
  (if 0 < df.countP (fun r => r.energy_mwh.isNone) then
    [⟨"missing_values", "energy_mwh", df.countP (fun r => r.energy_mwh.isNone), none⟩] else [])

/-- Check 2: a single aggregate temperature-outlier row, emitted only when
`not temp_outliers.empty`. -/
def tempOutlierRows (df : List MergedRow) : List ReportRow :=
  if 0 < tempOutlierCount df then
    [⟨"temperature_outliers", "tmax_f / tmin_f", tempOutlierCount df, none⟩] else []

/-- Check 3: a single aggregate energy-issue row, emitted only when
`not demand_issues.empty`. -/
def energyIssueRows (df : List MergedRow) : List ReportRow :=
  if 0 < energyIssueCount df then
    [⟨"energy_issues", "energy_mwh", energyIssueCount df, none⟩] else []

/-- `pd.to_datetime(df["date"]).max()`: `none` (NaT) on an empty frame. -/
def latestDate (df : List MergedRow) : Option ℤ :=
  (df.map (·.date)).max?

/-- `generate_data_quality_report(df, city)`. On an empty frame the Python
code raises at `latest_date.date()` (NaT has no `.date`), so no report is
produced: modelled as `none`. Otherwise all four checks run and the freshness
row is always appended, with `days_old = (today - latest_date).days` and
`is_fresh = days_old <= 2`. -/
def generate_data_quality_report (df : List MergedRow) (today : ℤ) :
    Option (List ReportRow) :=
  match latestDate df with
  | none => none
  | some m =>
      some (missingRows df ++ tempOutlierRows df ++ energyIssueRows df ++
        [⟨"data_freshness", "date", today - m, some (decide (today - m ≤ 2))⟩])

/-- `drop_duplicates("date")` keep-first, with the set of already-seen keys
made explicit. -/
def dedupByAux {α : Type} (f : α → ℤ) (seen : List ℤ) : List α → List α
  | [] => []
  | x :: xs =>
      if f x ∈ seen then dedupByAux f seen xs
      else x :: dedupByAux f (f x :: seen) xs

/-- `drop_duplicates("date")`: keep the first row of each key. -/
def dedupBy {α : Type} (f : α → ℤ) (l : List α) : List α :=
  dedupByAux f [] l

/-- `pd.merge(weather_df, energy_df, on="date", how="inner")` for one city,
followed by `merged["city"] = city`: every (weather row, energy row) pair
agreeing on the date yields one merged row, in left-frame order. -/
def mergeOnDate (weather : List WeatherRow) (energy : List EnergyRow)
    (city : String) : List MergedRow :=
  weather.flatMap fun w =>
    (energy.filter fun e => e.date == w.date).map fun e =>
      ⟨w.date, w.tmax_f, w.tmin_f, e.energy_mwh, city⟩

/-- `process_city_data(weather_path, energy_path, city)`: window both frames
to the last 90 days (`date >= today - 89`), de-duplicate by date, inner-merge
on date, then drop rows with null temperature or energy, drop negative
energy, de-duplicate again, and return the cleaned frame. (The quality report
is generated on the merged frame before the drop; see
`generate_data_quality_report`.) -/
def process_city_data (weather : List WeatherRow) (energy : List EnergyRow)
    (city : String) (today : ℤ) : List MergedRow :=
  let start_date := today - 89
  let weather' := dedupBy (·.date) (weather.filter fun r => start_date ≤ r.date)
  let energy' := dedupBy (·.date) (energy.filter fun r => start_date ≤ r.date)
  let merged := mergeOnDate weather' energy' city
  let cleaned := merged.filter fun r =>
    r.tmax_f.isSome && r.tmin_f.isSome && r.energy_mwh.isSome
  let cleaned := cleaned.filter fun r => optGe r.energy_mwh 0
  dedupBy (·.date) cleaned

/-! ## Analysis engine (`src/analysis.py`) -/

/-- `pd.Timestamp.weekday()` (Monday = 0) for a date given as days since
1970-01-01, which was a Thursday (weekday 3). -/
def weekdayOf (d : ℤ) : ℤ :=
  (d + 3) % 7

/-- `lambda x: "Weekend" if x >= 5 else "Weekday"` applied to the weekday of a
row's date (`weekday_weekend_analysis`). -/
def dayType (d : ℤ) : String :=
  if 5 ≤ weekdayOf d then "Weekend" else "Weekday"

/-- A row of the weekday/weekend summary. Pandas' `std` aggregate is a square
root and takes irrational values, so only the `mean` and `count` aggregates
are modelled. -/
structure DayTypeSummary where
  day_type : String
  mean_energy : Option ℚ
  count : ℕ
deriving DecidableEq

/-- Pandas `count` aggregate for one `day_type` group: non-null energy cells. -/
def energyCount (df : List MergedRow) (t : String) : ℕ :=
  df.countP fun r => dayType r.date == t && r.energy_mwh.isSome

/-- Sum of the non-null energy cells of one `day_type` group. -/
def energySum (df : List MergedRow) (t : String) : ℚ :=
  ((df.filter fun r => dayType r.date == t).filterMap (·.energy_mwh)).sum

/-- `df.groupby("day_type")["energy_mwh"].agg(["mean", "std", "count"])`:
one summary row per non-empty group, groups in the sorted key order
("Weekday" < "Weekend") that pandas `groupby` produces; `mean` is NaN (`none`)
when the group has no non-null energy cell. -/
def weekday_weekend_analysis (df : List MergedRow) : List DayTypeSummary :=
  (["Weekday", "Weekend"].filter fun t =>
      0 < df.countP fun r => dayType r.date == t).map fun t =>
    ⟨t,
     if 0 < energyCount df t then some (energySum df t / (energyCount df t : ℚ))
     else none,
     energyCount df t⟩

/-! ### Concrete batches used to exercise the definitions -/

/-- A merged batch whose temperature (tmax) values are 120, 140, −60, 70 °F. -/
def exampleTempBatch : List MergedRow :=
  [⟨0, some 120, some 50, some 1000, "X"⟩,
   ⟨1, some 140, some 50, some 1000, "X"⟩,
   ⟨2, some (-60), some 50, some 1000, "X"⟩,
   ⟨3, some 70, some 50, some 1000, "X"⟩]

/-- The quality report of `exampleTempBatch` on day 4. -/
def exampleTempReport : List ReportRow :=
  [⟨"temperature_outliers", "tmax_f / tmin_f", 2, none⟩,
   ⟨"data_freshness", "date", 1, some true⟩]

/-- A clean one-row merged batch whose latest date is day 5. -/
def freshExampleBatch : List MergedRow :=
  [⟨5, some 70, some 50, some 1000, "X"⟩]

/-- The quality report of `freshExampleBatch` on day 7 (2 days later). -/
def freshExampleReport : List ReportRow :=
  [⟨"data_freshness", "date", 2, some true⟩]

/-- Weather input with dates {100, 99} (d1 = 100, d2 = 99). -/
def mergeExampleWeather : List WeatherRow :=
  [⟨100, some 80, some 60⟩, ⟨99, some 70, some 55⟩]

/-- Energy input with dates {100, 98} (d1 = 100, d3 = 98). -/
def mergeExampleEnergy : List EnergyRow :=
  [⟨100, some 2000⟩, ⟨98, some 1800⟩]

/-! ## HTTP retry client (`src/data_fetcher.py`, `_get_with_backoff`) -/

/-- What one `requests.get` + `raise_for_status` attempt did. -/
inductive Outcome where
  /-- 2xx/3xx: the response object is returned. The body is abstracted to a
  number. -/
  | ok (body : ℕ)
  /-- `raise_for_status` raised `HTTPError`; `e.response.status_code`, or
  `none` when `e.response is None`. -/
  | http (status : Option ℕ)
  /-- some other `RequestException` (network failure). -/
  | net
deriving DecidableEq

/-- The error `_get_with_backoff` re-raises. -/
inductive FetchErr where
  | http (status : Option ℕ)
  | net
deriving DecidableEq

/-- `status and 500 <= status < 600` (a `None` or zero status is falsy). -/
def retryableStatus : Option ℕ → Bool
  | some n => decide (n ≠ 0) && decide (500 ≤ n) && decide (n < 600)
  | none => false

/-- An attempt outcome the client treats as transient: a 5xx `HTTPError` or a
network-level `RequestException`. -/
def retryableOutcome : Outcome → Bool
  | .ok _ => false
  | .http s => retryableStatus s
  | .net => true

/-- The error raised for a non-`ok` outcome. (Unused for `ok`.) -/
def outcomeErr : Outcome → FetchErr
  | .ok _ => .net
  | .http s => .http s
  | .net => .net

/-- The `for attempt in range(1, max_retries + 1)` loop of `_get_with_backoff`,
with `f attempt` the outcome of the attempt's request. Returns the final result
(`none` models falling off the loop and returning `None`, possible only when
`max_retries = 0`) together with the list of back-off sleeps performed, in
order. `fuel` is the number of remaining loop iterations. -/
def getWithBackoffGo (f : ℕ → Outcome) (maxRetries backoff : ℕ) :
    ℕ → ℕ → Option (Except FetchErr ℕ) × List ℕ
  | _, 0 => (none, [])
  | attempt, fuel + 1 =>
      match f attempt with
      | .ok b => (some (.ok b), [])
      | .http s =>
          if retryableStatus s && decide (attempt < maxRetries) then
            let wait := backoff * 2 ^ (attempt - 1)
            let rest := getWithBackoffGo f maxRetries backoff (attempt + 1) fuel
            (rest.1, wait :: rest.2)
          else (some (.error (.http s)), [])
      | .net =>
          if attempt < maxRetries then
            let wait := backoff * 2 ^ (attempt - 1)
            let rest := getWithBackoffGo f maxRetries backoff (attempt + 1) fuel
            (rest.1, wait :: rest.2)
          else (some (.error .net), [])

/-- `_get_with_backoff(url, params, headers, max_retries, backoff_factor)`:
attempts start at 1 and the loop body runs at most `max_retries` times. -/
def get_with_backoff (f : ℕ → Outcome) (maxRetries backoff : ℕ) :
    Option (Except FetchErr ℕ) × List ℕ :=
  getWithBackoffGo f maxRetries backoff 1 maxRetries

/-! ## Pipeline orchestrator (`src/pipeline.py`) -/

/-- What `subprocess.run(command, shell=True)` did for one step: either the
call itself raised, or the command completed with an exit code. -/
inductive StepResult where
  | exc
  | ret (code : ℤ)
deriving DecidableEq

/-- `run_step(name, command)`: a completed command is only logged (success for
exit code 0, failure otherwise) and the function returns normally either way;
an exception from `subprocess.run` propagates (there is no try/except). The
`Bool` is the logged success flag. -/
def run_step (res : StepResult) : Except Unit Bool :=
  match res with
  | .exc => .error ()
  | .ret code => .ok (code == 0)

/-- The logged success flag of a completed step. -/
def stepOk (res : StepResult) : Bool :=
  match res with
  | .exc => false
  | .ret code => code == 0

/-- The `for name, cmd in steps: run_step(name, cmd)` loop of `main`: on
success the loop continues regardless of the step's exit code; a raised
exception propagates immediately. `Except.ok` carries each executed step's
name and success flag; `Except.error` carries the names of the steps that
were executed before (and including) the raising one. -/
def runSteps : List (String × StepResult) → Except (List String) (List (String × Bool))
  | [] => .ok []
  | (name, res) :: rest =>
      match run_step res with
      | .error () => .error [name]
      | .ok okFlag =>
          match runSteps rest with
          | .error executed => .error (name :: executed)
          | .ok results => .ok ((name, okFlag) :: results)

/-- The three ETL stages of `main` with the fetch stage failing (exit code 1)
and the remaining stages succeeding. -/
def failingRun : List (String × StepResult) :=
  [("Data Fetching", .ret 1), ("Data Processing", .ret 0), ("Data Analysis", .ret 0)]

/-! ## Energy fetcher (`src/data_fetcher.py`, `fetch_energy_data`) -/

/-- What one city's EIA request produced: parsed JSON rows (possibly the empty
list, via `.get("response", {}).get("data", [])`), or an exception from
`_get_with_backoff` — which the per-city `except Exception` swallows. -/
inductive CityFetchOutcome where
  | data (rows : List EnergyRow)
  | raised
deriving DecidableEq

/-- The per-city log line `fetch_energy_data` emits. -/
inductive FetchLogEntry where
  | warnedNoData (city : String)
  | errored (city : String)
  | saved (city : String)
deriving DecidableEq

/-- `fetch_energy_data(days)` over the configured city list: each city is
handled inside `try/except Exception`, a city with no rows logs `⚠️ No energy
data for …` and `continue`s, a city whose fetch raised logs `❌ Energy fetch
failed …`, and a city with rows writes its CSV. The function has no failure
path of its own: it always returns `None` (`Except.ok` with the log), even
when zero records were fetched across all cities. -/
def fetch_energy_data (cities : List (String × CityFetchOutcome)) :
    Except String (List FetchLogEntry) :=
  .ok (cities.map fun c =>
    match c.2 with
    | .raised => .errored c.1
    | .data [] => .warnedNoData c.1
    | .data (_ :: _) => .saved c.1)

/-- A run in which no city returns any record. -/
def noDataRun : List (String × CityFetchOutcome) :=
  [("New York", .data []), ("Chicago", .data []), ("Houston", .data []),
   ("Phoenix", .data []), ("Seattle", .data [])]

end EnergyAnalysis

namespace EnergyAnalysis

/-! ## Helper lemmas -/

theorem mem_of_mem_dedupByAux {α : Type} (f : α → ℤ) (seen : List ℤ)
    (l : List α) (a : α) (h : a ∈ dedupByAux f seen l) : a ∈ l := by
  induction l generalizing seen with
  | nil => simp [dedupByAux] at h
  | cons x xs ih =>
    by_cases hx : f x ∈ seen
    · simp only [dedupByAux, if_pos hx] at h
      exact List.mem_cons_of_mem _ (ih _ h)
    · simp only [dedupByAux, if_neg hx, List.mem_cons] at h
      rcases h with h | h
      · exact h ▸ List.mem_cons_self _ _
      · exact List.mem_cons_of_mem _ (ih _ h)

theorem mem_of_mem_dedupBy {α : Type} (f : α → ℤ) (l : List α) (a : α)
    (h : a ∈ dedupBy f l) : a ∈ l :=
  mem_of_mem_dedupByAux f [] l a h

theorem check_of_mem_missingRows (df : List MergedRow) (r : ReportRow)
    (h : r ∈ missingRows df) : r.check = "missing_values" := by
  unfold missingRows at h
  rcases List.mem_append.1 h with h1 | h1
  · rcases List.mem_append.1 h1 with h2 | h2
    · split_ifs at h2 <;> simp_all
    · split_ifs at h2 <;> simp_all
  · split_ifs at h1 <;> simp_all

theorem check_of_mem_energyIssueRows (df : List MergedRow) (r : ReportRow)
    (h : r ∈ energyIssueRows df) : r.check = "energy_issues" := by
  unfold energyIssueRows at h
  split_ifs at h <;> simp_all

theorem mem_tempOutlierRows (df : List MergedRow) (r : ReportRow)
    (h : r ∈ tempOutlierRows df) :
    r.check = "temperature_outliers" ∧ r.count = (tempOutlierCount df : ℤ) := by
  unfold tempOutlierRows at h
  split_ifs at h <;> simp_all

theorem missingRows_filter_ne (df : List MergedRow) (s : String)
    (hs : s ≠ "missing_values") :
    (missingRows df).filter (fun r => r.check == s) = [] := by
  rw [List.filter_eq_nil_iff]
  intro r hr
  rw [check_of_mem_missingRows df r hr]
  simp
  exact fun e => hs e.symm

theorem energyIssueRows_filter_ne (df : List MergedRow) (s : String)
    (hs : s ≠ "energy_issues") :
    (energyIssueRows df).filter (fun r => r.check == s) = [] := by
  rw [List.filter_eq_nil_iff]
  intro r hr
  rw [check_of_mem_energyIssueRows df r hr]
  simp
  exact fun e => hs e.symm

theorem tempOutlierRows_filter_ne (df : List MergedRow) (s : String)
    (hs : s ≠ "temperature_outliers") :
    (tempOutlierRows df).filter (fun r => r.check == s) = [] := by
  rw [List.filter_eq_nil_iff]
  intro r hr
  rw [(mem_tempOutlierRows df r hr).1]
  simp
  exact fun e => hs e.symm

theorem getWithBackoffGo_retry_step (f : ℕ → Outcome) (maxRetries b attempt fuel : ℕ)
    (h : retryableOutcome (f attempt) = true) (hlt : attempt < maxRetries) :
    getWithBackoffGo f maxRetries b attempt (fuel + 1) =
      ((getWithBackoffGo f maxRetries b (attempt + 1) fuel).1,
        b * 2 ^ (attempt - 1) :: (getWithBackoffGo f maxRetries b (attempt + 1) fuel).2) := by
  cases hf : f attempt with
  | ok body => rw [hf] at h; simp [retryableOutcome] at h
  | http s =>
      rw [hf] at h
      simp only [retryableOutcome] at h
      simp [getWithBackoffGo, hf, h, hlt]
  | net => simp [getWithBackoffGo, hf, hlt]

theorem getWithBackoffGo_last (f : ℕ → Outcome) (maxRetries b attempt fuel : ℕ)
    (h : retryableOutcome (f attempt) = true) (hge : ¬ attempt < maxRetries) :
    getWithBackoffGo f maxRetries b attempt (fuel + 1) =
      (some (.error (outcomeErr (f attempt))), []) := by
  cases hf : f attempt with
  | ok body => rw [hf] at h; simp [retryableOutcome] at h
  | http s => simp [getWithBackoffGo, hf, hge, outcomeErr]
  | net => simp [getWithBackoffGo, hf, hge, outcomeErr]

/-- **C3.** With the default `max_retries = 3`: a non-retryable 4xx (other than
rate-limit) on the first attempt propagates immediately, with no retry and no
sleep; if every attempt fails transiently (5xx or network), the client sleeps
`backoff * 2^(k-1)` before retry `k` (doubling each attempt) and after the
last attempt re-raises that attempt's original error; a transient first
failure followed by a success returns the successful response after one
back-off sleep. -/
theorem backoff_retry_contract (b : ℕ) (f : ℕ → Outcome) :
    (∀ s : ℕ, f 1 = Outcome.http (some s) → 400 ≤ s → s < 500 → s ≠ 429 →
      get_with_backoff f 3 b = (some (.error (.http (some s))), []))
    ∧ (retryableOutcome (f 1) = true → retryableOutcome (f 2) = true →
        retryableOutcome (f 3) = true →
        get_with_backoff f 3 b =
          (some (.error (outcomeErr (f 3))), [b * 2 ^ 0, b * 2 ^ 1]))
    ∧ (∀ body : ℕ, retryableOutcome (f 1) = true → f 2 = Outcome.ok body →
        get_with_backoff f 3 b = (some (.ok body), [b * 2 ^ 0])) := by
  refine ⟨?_, ?_, ?_⟩
  · intro s h1 h400 h500 _
    have hs : retryableStatus (some s) = false := by
      simp only [retryableStatus]
      simp only [Bool.and_eq_false_iff]
      left; right
      simpa using by omega
    unfold get_with_backoff
    simp [getWithBackoffGo, h1, hs]
  · intro r1 r2 r3
    unfold get_with_backoff
    rw [show (3 : ℕ) = 2 + 1 from rfl, getWithBackoffGo_retry_step f 3 b 1 2 r1 (by norm_num),
      getWithBackoffGo_retry_step f 3 b 2 1 r2 (by norm_num),
      getWithBackoffGo_last f 3 b 3 0 r3 (by norm_num)]
  · intro body r1 h2
    unfold get_with_backoff
    rw [show (3 : ℕ) = 2 + 1 from rfl, getWithBackoffGo_retry_step f 3 b 1 2 r1 (by norm_num)]
    simp [getWithBackoffGo, h2]

/-- Witness for C3: a 404 propagates immediately; three network failures sleep
1 s then 2 s and re-raise; failure-then-success returns the body after one
1-second sleep. -/
theorem backoff_retry_contract_witness :
    get_with_backoff (fun _ => Outcome.http (some 404)) 3 1 =
        (some (.error (.http (some 404))), [])
    ∧ get_with_backoff (fun _ => Outcome.net) 3 1 = (some (.error .net), [1, 2])
    ∧ get_with_backoff (fun n => if n = 1 then Outcome.net else Outcome.ok 7) 3 1 =
        (some (.ok 7), [1]) := by
  refine ⟨?_, ?_, ?_⟩
  · exact (backoff_retry_contract 1 (fun _ => Outcome.http (some 404))).1 404 rfl
      (by norm_num) (by norm_num) (by norm_num)
  · have h := (backoff_retry_contract 1 (fun _ => Outcome.net)).2.1 rfl rfl rfl
    simpa using h
  · have h := (backoff_retry_contract 1
      (fun n => if n = 1 then Outcome.net else Outcome.ok 7)).2.2 7 rfl rfl
    simpa using h

/-- **C1 counterexample.** In the run where the first stage fails with exit
code 1 and the remaining stages succeed, the orchestrator still executes all
three stages and returns normally: no failure is surfaced to the caller,
contradicting the claim that a failed stage aborts the remaining stages. -/
theorem pipeline_failed_stage_counterexample :
    runSteps failingRun =
      .ok [("Data Fetching", false), ("Data Processing", true), ("Data Analysis", true)]
    ∧ ¬ ∃ err, runSteps failingRun = Except.error err := by
  constructor
  · rfl
  · rintro ⟨err, h⟩
    have hok : runSteps failingRun =
        .ok [("Data Fetching", false), ("Data Processing", true), ("Data Analysis", true)] := rfl
    rw [hok] at h
    exact Except.noConfusion h

/-- **C1 (amended).** If a stage raises an exception, the remaining stages are
not executed and the exception is surfaced to the caller (outputs already
written stay in place — no cleanup path exists); a stage that merely fails
with a nonzero exit code is only logged: every stage still executes and the
run returns normally. -/
theorem pipeline_exception_aborts_failure_continues :
    (∀ (pre post : List (String × StepResult)) (name : String),
      (∀ p ∈ pre, p.2 ≠ StepResult.exc) →
      runSteps (pre ++ (name, StepResult.exc) :: post) =
        .error (pre.map (·.1) ++ [name]))
    ∧ (∀ steps : List (String × StepResult),
      (∀ p ∈ steps, p.2 ≠ StepResult.exc) →
      runSteps steps = .ok (steps.map fun p => (p.1, stepOk p.2))) := by
  constructor
  · intro pre post name hpre
    induction pre with
    | nil => simp [runSteps, run_step]
    | cons p ps ih =>
      obtain ⟨pname, pres⟩ := p
      have hne := hpre ⟨pname, pres⟩ (by simp)
      cases pres with
      | exc => exact absurd rfl hne
      | ret code =>
        have ih' := ih fun q hq => hpre q (List.mem_cons_of_mem _ hq)
        simp [runSteps, run_step, ih']
  · intro steps hsteps
    induction steps with
    | nil => rfl
    | cons p ps ih =>
      obtain ⟨pname, pres⟩ := p
      have hne := hsteps ⟨pname, pres⟩ (by simp)
      cases pres with
      | exc => exact absurd rfl hne
      | ret code =>
        have ih' := ih fun q hq => hsteps q (List.mem_cons_of_mem _ hq)
        simp [runSteps, run_step, stepOk, ih']

/-- Witness for the amended C1: an exception in the processing stage surfaces
with the analysis stage unexecuted, and the all-completed run with a failing
fetch stage executes everything. -/
theorem pipeline_exception_aborts_failure_continues_witness :
    runSteps [("Data Fetching", StepResult.ret 0), ("Data Processing", StepResult.exc),
        ("Data Analysis", StepResult.ret 0)] =
      .error ["Data Fetching", "Data Processing"]
    ∧ runSteps failingRun =
        .ok [("Data Fetching", false), ("Data Processing", true), ("Data Analysis", true)] := by
  constructor
  · have h := pipeline_exception_aborts_failure_continues.1
      [("Data Fetching", StepResult.ret 0)] [("Data Analysis", StepResult.ret 0)]
      "Data Processing" (by decide)
    simpa using h
  · have h := pipeline_exception_aborts_failure_continues.2 failingRun (by decide)
    simpa [failingRun, stepOk] using h

/-- **C2 (code behaviour at the failing input).** `fetch_energy_data` has no
fatal data-absence path: when no city returns any record it logs one per-city
warning for each city and still returns normally, and it returns normally
(`None`) on every input whatsoever. -/
theorem fetch_energy_no_data_not_fatal :
    fetch_energy_data noDataRun =
      .ok [.warnedNoData "New York", .warnedNoData "Chicago", .warnedNoData "Houston",
        .warnedNoData "Phoenix", .warnedNoData "Seattle"]
    ∧ ∀ cities : List (String × CityFetchOutcome),
        ∃ logs, fetch_energy_data cities = Except.ok logs :=
  ⟨rfl, fun _ => ⟨_, rfl⟩⟩

/-- **C4.** The quality report's temperature-outlier check counts exactly the
rows whose `tmax_f` or `tmin_f` falls outside [-50, 130] °F, reported as one
aggregate row emitted only when the count is positive; for a batch with
temperature values [120, 140, −60, 70] the count is 2. -/
theorem quality_report_temperature_outliers (df : List MergedRow) (today : ℤ)
    (rep : List ReportRow)
    (h : generate_data_quality_report df today = some rep) :
    ((rep.filter fun r => r.check == "temperature_outliers").length =
        if 0 < tempOutlierCount df then 1 else 0)
      ∧ (∀ r ∈ rep, r.check = "temperature_outliers" →
          r.count = (tempOutlierCount df : ℤ))
      ∧ (∀ r : MergedRow, isTempOutlier r = true ↔
          ((∃ v, r.tmax_f = some v ∧ (v < -50 ∨ 130 < v)) ∨
           (∃ v, r.tmin_f = some v ∧ (v < -50 ∨ 130 < v))))
      ∧ tempOutlierCount exampleTempBatch = 2 := by
  unfold generate_data_quality_report at h
  rcases hm : latestDate df with _ | m <;> rw [hm] at h
  · exact absurd h (by simp)
  rw [Option.some.injEq] at h
  subst h
  refine ⟨?_, ?_, ?_, by decide⟩
  · rw [List.filter_append, List.filter_append, List.filter_append]
    rw [missingRows_filter_ne df _ (by decide),
      energyIssueRows_filter_ne df _ (by decide)]
    unfold tempOutlierRows
    split_ifs with hc <;> simp [hc]
  · intro r hr hcheck
    rcases List.mem_append.1 hr with h1 | h1
    · rcases List.mem_append.1 h1 with h2 | h2
      · rcases List.mem_append.1 h2 with h3 | h3
        · rw [check_of_mem_missingRows df r h3] at hcheck; exact absurd hcheck (by decide)
        · exact (mem_tempOutlierRows df r h3).2
      · rw [check_of_mem_energyIssueRows df r h2] at hcheck; exact absurd hcheck (by decide)
    · simp at h1
      rw [h1] at hcheck
      simp at hcheck
  · intro r
    unfold isTempOutlier optGt optLt
    rcases r.tmax_f with _ | a <;> rcases r.tmin_f with _ | b <;> simp <;> tauto

/-- **C5.** For every non-empty merged batch the freshness check emits exactly
one report row; its `is_fresh` flag is `days_old ≤ 2` where `days_old` is the
number of days between today and the most recent date; at the boundary,
2 days old is fresh and 3 days old is stale. -/
theorem quality_report_freshness (df : List MergedRow) (today : ℤ)
    (rep : List ReportRow)
    (h : generate_data_quality_report df today = some rep) :
    ((rep.filter fun r => r.check == "data_freshness").length = 1)
      ∧ (∀ r ∈ rep, r.check = "data_freshness" →
          ∃ m, latestDate df = some m ∧ r.count = today - m ∧
            r.is_fresh = some (decide (today - m ≤ 2)))
      ∧ (∀ r ∈ rep, r.check = "data_freshness" → r.count = 2 →
          r.is_fresh = some true)
      ∧ (∀ r ∈ rep, r.check = "data_freshness" → r.count = 3 →
          r.is_fresh = some false) := by
  unfold generate_data_quality_report at h
  rcases hm : latestDate df with _ | m <;> rw [hm] at h
  · exact absurd h (by simp)
  rw [Option.some.injEq] at h
  subst h
  have hmem : ∀ r : ReportRow,
      r ∈ missingRows df ++ tempOutlierRows df ++ energyIssueRows df ++
        [⟨"data_freshness", "date", today - m, some (decide (today - m ≤ 2))⟩] →
      r.check = "data_freshness" →
      r = ⟨"data_freshness", "date", today - m, some (decide (today - m ≤ 2))⟩ := by
    intro r hr hcheck
    rcases List.mem_append.1 hr with h1 | h1
    · rcases List.mem_append.1 h1 with h2 | h2
      · rcases List.mem_append.1 h2 with h3 | h3
        · rw [check_of_mem_missingRows df r h3] at hcheck
          exact absurd hcheck (by decide)
        · rw [(mem_tempOutlierRows df r h3).1] at hcheck
          exact absurd hcheck (by decide)
      · rw [check_of_mem_energyIssueRows df r h2] at hcheck
        exact absurd hcheck (by decide)
    · simpa using h1
  refine ⟨?_, ?_, ?_, ?_⟩
  · rw [List.filter_append, List.filter_append, List.filter_append]
    rw [missingRows_filter_ne df _ (by decide),
      energyIssueRows_filter_ne df _ (by decide),
      tempOutlierRows_filter_ne df _ (by decide)]
    simp
  · intro r hr hcheck
    rw [hmem r hr hcheck]
    exact ⟨m, rfl, rfl, rfl⟩
  · intro r hr hcheck hcount
    rw [hmem r hr hcheck] at hcount ⊢
    simp only at hcount
    rw [hcount]
    decide
  · intro r hr hcheck hcount
    rw [hmem r hr hcheck] at hcount ⊢
    simp only at hcount
    rw [hcount]
    decide

/-- Witness for C4: the report of `exampleTempBatch` (temperatures
[120, 140, −60, 70] °F) on day 4. -/
theorem quality_report_temperature_outliers_witness :
    ((exampleTempReport.filter fun r => r.check == "temperature_outliers").length =
        if 0 < tempOutlierCount exampleTempBatch then 1 else 0)
      ∧ (∀ r ∈ exampleTempReport, r.check = "temperature_outliers" →
          r.count = (tempOutlierCount exampleTempBatch : ℤ))
      ∧ (∀ r : MergedRow, isTempOutlier r = true ↔
          ((∃ v, r.tmax_f = some v ∧ (v < -50 ∨ 130 < v)) ∨
           (∃ v, r.tmin_f = some v ∧ (v < -50 ∨ 130 < v))))
      ∧ tempOutlierCount exampleTempBatch = 2 :=
  quality_report_temperature_outliers exampleTempBatch 4 exampleTempReport (by decide)

/-- Witness for C5: the report of `freshExampleBatch` (latest date day 5) on
day 7, exactly 2 days later. -/
theorem quality_report_freshness_witness :
    ((freshExampleReport.filter fun r => r.check == "data_freshness").length = 1)
      ∧ (∀ r ∈ freshExampleReport, r.check = "data_freshness" →
          ∃ m, latestDate freshExampleBatch = some m ∧ r.count = 7 - m ∧
            r.is_fresh = some (decide (7 - m ≤ 2)))
      ∧ (∀ r ∈ freshExampleReport, r.check = "data_freshness" → r.count = 2 →
          r.is_fresh = some true)
      ∧ (∀ r ∈ freshExampleReport, r.check = "data_freshness" → r.count = 3 →
          r.is_fresh = some false) :=
  quality_report_freshness freshExampleBatch 7 freshExampleReport (by decide)

/-- **C6.** Every row of the cleaned output of the merge-and-drop step has
`tmax_f` and `tmin_f` present (never null): rows with nulls in the temperature
or energy fields are dropped after the join. -/
theorem cleaned_rows_have_temperatures (weather : List WeatherRow)
    (energy : List EnergyRow) (city : String) (today : ℤ) (r : MergedRow)
    (h : r ∈ process_city_data weather energy city today) :
    r.tmax_f.isSome = true ∧ r.tmin_f.isSome = true := by
  simp only [process_city_data] at h
  have h1 := mem_of_mem_dedupBy _ _ _ h
  rw [List.mem_filter] at h1
  have h2 := h1.1
  rw [List.mem_filter] at h2
  have h3 := h2.2
  simp only [Bool.and_eq_true] at h3
  exact ⟨h3.1.1, h3.1.2⟩

/-- Witness for C6: the single cleaned row of the concrete merge example. -/
theorem cleaned_rows_have_temperatures_witness :
    (⟨100, some 80, some 60, some 2000, "X"⟩ : MergedRow).tmax_f.isSome = true ∧
      (⟨100, some 80, some 60, some 2000, "X"⟩ : MergedRow).tmin_f.isSome = true :=
  cleaned_rows_have_temperatures mergeExampleWeather mergeExampleEnergy "X" 100
    ⟨100, some 80, some 60, some 2000, "X"⟩ (by decide)

/-- **C7.** The merge step is an inner join on (city, date): a (city, date) key
survives iff the date is present on both the weather and the energy side of
that city; concretely, with weather dates {100, 99} and energy dates {100, 98},
the processed result is exactly one row, for date 100 — 99 and 98 are dropped
silently. -/
theorem merge_inner_join_on_city_date :
    (∀ (w : List WeatherRow) (e : List EnergyRow) (c : String) (d : ℤ),
      (∃ r ∈ mergeOnDate w e c, r.date = d ∧ r.city = c) ↔
        ((∃ wr ∈ w, wr.date = d) ∧ (∃ er ∈ e, er.date = d)))
      ∧ process_city_data mergeExampleWeather mergeExampleEnergy "X" 100 =
          [⟨100, some 80, some 60, some 2000, "X"⟩] := by
  constructor
  · intro w e c d
    constructor
    · rintro ⟨r, hr, hd, hc⟩
      simp only [mergeOnDate, List.mem_flatMap, List.mem_map, List.mem_filter,
        beq_iff_eq] at hr
      obtain ⟨wr, hwr, er, ⟨her, hdate⟩, hre⟩ := hr
      subst hre
      simp only at hd
      exact ⟨⟨wr, hwr, hd⟩, ⟨er, her, by rw [hdate, hd]⟩⟩
    · rintro ⟨⟨wr, hwr, hwd⟩, ⟨er, her, hed⟩⟩
      refine ⟨⟨wr.date, wr.tmax_f, wr.tmin_f, er.energy_mwh, c⟩, ?_, hwd, rfl⟩
      simp only [mergeOnDate, List.mem_flatMap, List.mem_map, List.mem_filter,
        beq_iff_eq]
      exact ⟨wr, hwr, er, ⟨her, by rw [hwd, hed]⟩, rfl⟩
  · decide

theorem countP_dayType_split (df : List MergedRow) :
    df.countP (fun r => dayType r.date == "Weekday") +
      df.countP (fun r => dayType r.date == "Weekend") = df.length := by
  induction df with
  | nil => rfl
  | cons x xs ih =>
    rw [List.countP_cons, List.countP_cons]
    by_cases hx : 5 ≤ weekdayOf x.date
    · have h1 : (dayType x.date == "Weekday") = false := by
        unfold dayType; rw [if_pos hx]; decide
      have h2 : (dayType x.date == "Weekend") = true := by
        unfold dayType; rw [if_pos hx]; decide
      rw [h1, h2]
      simp
      omega
    · have h1 : (dayType x.date == "Weekday") = true := by
        unfold dayType; rw [if_neg hx]; decide
      have h2 : (dayType x.date == "Weekend") = false := by
        unfold dayType; rw [if_neg hx]; decide
      rw [h1, h2]
      simp
      omega

theorem energyCount_of_all_some (df : List MergedRow) (t : String)
    (hE : ∀ r ∈ df, r.energy_mwh.isSome = true) :
    energyCount df t = df.countP (fun r => dayType r.date == t) := by
  unfold energyCount
  apply List.countP_congr
  intro r hr
  rw [hE r hr, Bool.and_true]

/-- **C8.** The weekday/weekend analysis classifies a row as "Weekday" iff its
date's weekday is in {0..4} and as "Weekend" iff it is in {5, 6}, and the
split partitions the batch: the Weekday count plus the Weekend count equals
the number of rows. -/
theorem weekday_weekend_partition (df : List MergedRow)
    (hE : ∀ r ∈ df, r.energy_mwh.isSome = true) :
    (∀ d : ℤ,
      (dayType d = "Weekday" ↔ (0 ≤ weekdayOf d ∧ weekdayOf d ≤ 4)) ∧
      (dayType d = "Weekend" ↔ (weekdayOf d = 5 ∨ weekdayOf d = 6)))
    ∧ ((weekday_weekend_analysis df).map (·.count)).sum = df.length := by
  constructor
  · intro d
    have h0 : 0 ≤ weekdayOf d := Int.emod_nonneg _ (by norm_num)
    have h7 : weekdayOf d < 7 := Int.emod_lt_of_pos _ (by norm_num)
    unfold dayType
    split_ifs with h5
    · exact ⟨⟨fun hs => absurd hs (by decide), fun hc => absurd hc.2 (by omega)⟩,
        fun _ => by omega, fun _ => rfl⟩
    · exact ⟨⟨fun _ => ⟨h0, by omega⟩, fun _ => rfl⟩,
        ⟨fun hs => absurd hs (by decide), fun hc => absurd hc (by omega)⟩⟩
  · have hW := energyCount_of_all_some df "Weekday" hE
    have hE' := energyCount_of_all_some df "Weekend" hE
    have hsplit := countP_dayType_split df
    unfold weekday_weekend_analysis
    by_cases h1 : 0 < df.countP (fun r => dayType r.date == "Weekday") <;>
      by_cases h2 : 0 < df.countP (fun r => dayType r.date == "Weekend")
    · rw [List.filter_cons, List.filter_cons, List.filter_nil,
        if_pos (decide_eq_true h1), if_pos (decide_eq_true h2)]
      simp only [List.map_cons, List.map_nil, List.sum_cons, List.sum_nil]
      rw [hW, hE']
      omega
    · rw [List.filter_cons, List.filter_cons, List.filter_nil,
        if_pos (decide_eq_true h1), if_neg (by simp [h2])]
      simp only [List.map_cons, List.map_nil, List.sum_cons, List.sum_nil]
      rw [hW]
      omega
    · rw [List.filter_cons, List.filter_cons, List.filter_nil,
        if_neg (by simp [h1]), if_pos (decide_eq_true h2)]
      simp only [List.map_cons, List.map_nil, List.sum_cons, List.sum_nil]
      rw [hE']
      omega
    · rw [List.filter_cons, List.filter_cons, List.filter_nil,
        if_neg (by simp [h1]), if_neg (by simp [h2])]
      simp only [List.map_nil, List.sum_nil]
      omega

/-- Witness for C8: the analysis of `exampleTempBatch` (two weekday rows, two
weekend rows). -/
theorem weekday_weekend_partition_witness :
    (∀ d : ℤ,
      (dayType d = "Weekday" ↔ (0 ≤ weekdayOf d ∧ weekdayOf d ≤ 4)) ∧
      (dayType d = "Weekend" ↔ (weekdayOf d = 5 ∨ weekdayOf d = 6)))
    ∧ ((weekday_weekend_analysis exampleTempBatch).map (·.count)).sum =
        exampleTempBatch.length :=
  weekday_weekend_partition exampleTempBatch (by decide)

/-- **C9.** The weather fetcher converts tenths of a degree Celsius to Fahrenheit
by `F = (tenths/10) * 9/5 + 32`, and 0 tenths (0 °C) maps to exactly 32 °F. -/
theorem fahrenheit_formula_and_reference :
    (∀ x : ℚ, fahrenheit x = x / 10 * (9 / 5) + 32) ∧ fahrenheit 0 = 32 := by
  constructor
  · intro x; rfl
  · simp [fahrenheit]

/-- **C10.** In the heatmap's temperature banding every band's lower boundary is
inclusive and the top band starts at exactly 90: a `tmax_f` of exactly 90 lands
in ">90°F" (not "80-90°F"), a `tmax_f` of exactly 50 lands in "50-60°F" (not
"<50°F"); in general the top band is assigned iff `90 ≤ val` and the 50–60 band
iff `50 ≤ val < 60`. -/
theorem temp_range_lower_bounds_inclusive :
    temp_range 90 = ">90°F" ∧ temp_range 50 = "50-60°F" ∧
      (∀ v : ℚ, temp_range v = ">90°F" ↔ 90 ≤ v) ∧
      (∀ v : ℚ, temp_range v = "50-60°F" ↔ 50 ≤ v ∧ v < 60) := by
  refine ⟨by norm_num [temp_range], by norm_num [temp_range], ?_, ?_⟩
  · intro v
    unfold temp_range
    split_ifs with h1 h2 h3 h4 h5
    · exact ⟨fun hs => absurd hs (by decide), fun h90 => absurd (by linarith : (90:ℚ) < 50) (by norm_num)⟩
    · exact ⟨fun hs => absurd hs (by decide), fun h90 => absurd (by linarith : (90:ℚ) < 60) (by norm_num)⟩
    · exact ⟨fun hs => absurd hs (by decide), fun h90 => absurd (by linarith : (90:ℚ) < 70) (by norm_num)⟩
    · exact ⟨fun hs => absurd hs (by decide), fun h90 => absurd (by linarith : (90:ℚ) < 80) (by norm_num)⟩
    · exact ⟨fun hs => absurd hs (by decide), fun h90 => absurd (by linarith : (90:ℚ) < 90) (by norm_num)⟩
    · exact ⟨fun _ => le_of_not_lt h5, fun _ => rfl⟩
  · intro v
    unfold temp_range
    split_ifs with h1 h2 h3 h4 h5
    · exact ⟨fun hs => absurd hs (by decide), fun hc => absurd hc.1 (by linarith)⟩
    · exact ⟨fun _ => ⟨le_of_not_lt h1, h2⟩, fun _ => rfl⟩
    · exact ⟨fun hs => absurd hs (by decide), fun hc => absurd hc.2 (by linarith)⟩
    · exact ⟨fun hs => absurd hs (by decide), fun hc => absurd hc.2 (by linarith)⟩
    · exact ⟨fun hs => absurd hs (by decide), fun hc => absurd hc.2 (by linarith)⟩
    · exact ⟨fun hs => absurd hs (by decide), fun hc => absurd hc.2 (by linarith)⟩

end EnergyAnalysis
